import Mathlib

/- Verification of the V4 HAL peripheral-dispatch and simulated-hardware core.

   Shallow embedding of:
   * tests/mock_hal.cpp            - the simulated ("mock") backend: GPIO pins,
                                     UART ports with bounded TX/RX buffers, and
                                     the simulated millisecond/microsecond clock;
   * src/internal/gpio_impl.hpp    - the CRTP GpioBase layer (mode/write/read/toggle);
   * src/internal/critical_impl.hpp- the CriticalImpl layer (critical_enter/critical_exit);
   * src/internal/timer_impl.hpp   - TimerBase::elapsed_ms wraparound helper;
   * ports/posix/platform_posix.cpp- the POSIX simulation platform (GPIO bitmasks);
   * src/common/hal_capabilities.cpp - the default capability descriptor.

   Conventions of the embedding:
   * C byte buffers with an explicit element count (char buf[256] + int count,
     where only the first `count` cells are ever readable) are modelled as
     `List Char` whose length is the count;
   * per-index static arrays are modelled as total functions `Nat → state`,
     with every operation performing the same range check as the C code before
     touching an index;
   * `uint32_t` / `uint64_t` counters are `Nat` reduced modulo 2^32 / 2^64 at
     each mutation;
   * an out-parameter `T*` becomes an extra `Option T`/`List Char` component of
     the result, and the possibility that the caller passes a null pointer
     becomes an explicit `Bool` argument (`true` = null was passed);
   * error codes are `Int` literals exactly as written in mock_hal.cpp:
     0 = OK, -1 = InvalidArg, -2 = NotInitialized, -3 = Timeout, -4 = Busy,
     -13 = OutOfBounds (taxonomy fixed in include/v4/v4_hal.h). -/

/-- MAX_GPIO_PINS from tests/mock_hal.cpp. -/
def MAX_GPIO_PINS : Int := 32

/-- MAX_UART_PORTS from tests/mock_hal.cpp. -/
def MAX_UART_PORTS : Int := 4

/-- UART_BUFFER_SIZE from tests/mock_hal.cpp: capacity C of each buffer. -/
def UART_BUFFER_SIZE : Nat := 256

/-- v4_hal_gpio_mode from include/v4/v4_hal.h (INPUT = 0, OUTPUT = 1,
INPUT_PULLUP = 2, INPUT_PULLDOWN = 3). -/
inductive v4_hal_gpio_mode
  | INPUT
  | OUTPUT
  | INPUT_PULLUP
  | INPUT_PULLDOWN
deriving DecidableEq

/-- struct MockGpioState from tests/mock_hal.cpp.  The C `int initialized`
only ever holds 0 or 1, so it is a `Bool` here (`inited`). -/
structure MockGpioState where
  inited : Bool
  mode : v4_hal_gpio_mode
  value : Int
deriving DecidableEq

/-- struct MockUartState from tests/mock_hal.cpp.  `tx_buffer` is the readable
prefix of the C `char tx_buffer[256]` (so `tx_count` = `tx_buffer.length`), and
likewise `rx_buffer`/`rx_count`; `rx_pos` is the read cursor. -/
structure MockUartState where
  inited : Bool
  baudrate : Int
  tx_buffer : List Char
  rx_buffer : List Char
  rx_pos : Nat
deriving DecidableEq

/-- The whole static state of tests/mock_hal.cpp: mock_gpio[], mock_uart[],
mock_millis_counter (uint32), mock_micros_counter (uint64). -/
structure MockHal where
  gpio : Nat → MockGpioState
  uart : Nat → MockUartState
  millis : Nat
  micros : Nat

/-- Zero-initialised per-pin state (static storage / memset 0). -/
def initGpio : MockGpioState := ⟨false, v4_hal_gpio_mode.INPUT, 0⟩

/-- Zero-initialised per-port state (static storage / memset 0): counts zero,
so both readable buffers are empty. -/
def initUart : MockUartState := ⟨false, 0, [], [], 0⟩

/-- The state at program start, which is also the state after mock_hal_reset. -/
def initState : MockHal := ⟨fun _ => initGpio, fun _ => initUart, 0, 0⟩

/-- mock_hal_reset from tests/mock_hal.cpp: memset everything to zero. -/
def mock_hal_reset (_ : MockHal) : MockHal := initState

/-- Write one pin's state back into the mock_gpio array. -/
def setGpio (st : MockHal) (i : Nat) (g : MockGpioState) : MockHal :=
  ⟨fun j => if j = i then g else st.gpio j, st.uart, st.millis, st.micros⟩

/-- Write one port's state back into the mock_uart array. -/
def setUart (st : MockHal) (i : Nat) (u : MockUartState) : MockHal :=
  ⟨st.gpio, fun j => if j = i then u else st.uart j, st.millis, st.micros⟩

/-- v4_hal_gpio_init from tests/mock_hal.cpp. -/
def v4_hal_gpio_init (st : MockHal) (pin : Int) (mode : v4_hal_gpio_mode) :
    Int × MockHal :=
  if pin < 0 ∨ pin ≥ MAX_GPIO_PINS then (-13, st)  -- OutOfBounds
  else (0, setGpio st pin.toNat ⟨true, mode, 0⟩)

/-- v4_hal_gpio_write from tests/mock_hal.cpp.  `value ? 1 : 0` is written as
an `if value ≠ 0` test. -/
def v4_hal_gpio_write (st : MockHal) (pin : Int) (value : Int) :
    Int × MockHal :=
  if pin < 0 ∨ pin ≥ MAX_GPIO_PINS then (-13, st)  -- OutOfBounds
  else if (st.gpio pin.toNat).inited = false then (-2, st)  -- NotInitialized
  else if (st.gpio pin.toNat).mode ≠ v4_hal_gpio_mode.OUTPUT then (-1, st)  -- InvalidArg
  else
    (0, setGpio st pin.toNat
      ⟨(st.gpio pin.toNat).inited, (st.gpio pin.toNat).mode,
       if value ≠ 0 then 1 else 0⟩)

/-- v4_hal_gpio_read from tests/mock_hal.cpp.  `out_null` = the caller passed a
null `out_value` pointer; the `Option Int` is what was stored through it.
The state is not mutated, so it is not returned. -/
def v4_hal_gpio_read (st : MockHal) (pin : Int) (out_null : Bool) :
    Int × Option Int :=
  if pin < 0 ∨ pin ≥ MAX_GPIO_PINS then (-13, none)  -- OutOfBounds
  else if (st.gpio pin.toNat).inited = false then (-2, none)  -- NotInitialized
  else if out_null then (-1, none)  -- InvalidArg
  else (0, some (st.gpio pin.toNat).value)

/-- v4_hal_uart_init from tests/mock_hal.cpp.  Sets tx_count, rx_count and
rx_pos to 0, so both readable buffers become empty. -/
def v4_hal_uart_init (st : MockHal) (port baudrate : Int) : Int × MockHal :=
  if port < 0 ∨ port ≥ MAX_UART_PORTS then (-13, st)  -- OutOfBounds
  else if baudrate ≤ 0 then (-1, st)  -- InvalidArg
  else (0, setUart st port.toNat ⟨true, baudrate, [], [], 0⟩)

/-- v4_hal_uart_putc from tests/mock_hal.cpp. -/
def v4_hal_uart_putc (st : MockHal) (port : Int) (c : Char) : Int × MockHal :=
  if port < 0 ∨ port ≥ MAX_UART_PORTS then (-13, st)  -- OutOfBounds
  else if (st.uart port.toNat).inited = false then (-2, st)  -- NotInitialized
  else if UART_BUFFER_SIZE ≤ (st.uart port.toNat).tx_buffer.length then (-4, st)  -- Busy
  else
    (0, setUart st port.toNat
      ⟨(st.uart port.toNat).inited, (st.uart port.toNat).baudrate,
       (st.uart port.toNat).tx_buffer ++ [c],
       (st.uart port.toNat).rx_buffer, (st.uart port.toNat).rx_pos⟩)

/-- v4_hal_uart_getc from tests/mock_hal.cpp.  `out_null` models a null
`out_c`; the `Option Char` is the byte stored through it.  The in-bounds array
access rx_buffer[rx_pos] (guarded by rx_pos < rx_count) is `getD`. -/
def v4_hal_uart_getc (st : MockHal) (port : Int) (out_null : Bool) :
    Int × Option Char × MockHal :=
  if port < 0 ∨ port ≥ MAX_UART_PORTS then (-13, none, st)  -- OutOfBounds
  else if (st.uart port.toNat).inited = false then (-2, none, st)  -- NotInitialized
  else if out_null then (-1, none, st)  -- InvalidArg
  else if (st.uart port.toNat).rx_buffer.length ≤ (st.uart port.toNat).rx_pos
  then (-3, none, st)  -- Timeout (no data)
  else
    (0, some ((st.uart port.toNat).rx_buffer.getD (st.uart port.toNat).rx_pos default),
     setUart st port.toNat
       ⟨(st.uart port.toNat).inited, (st.uart port.toNat).baudrate,
        (st.uart port.toNat).tx_buffer, (st.uart port.toNat).rx_buffer,
        (st.uart port.toNat).rx_pos + 1⟩)

/-- The `for (i = 0; i < len; i++)` loop of v4_hal_uart_write: append bytes one
at a time, stopping with Busy (-4) the moment tx_count reaches capacity. -/
def uart_write_loop (u : MockUartState) : List Char → Int × MockUartState
  | [] => (0, u)
  | c :: rest =>
    if UART_BUFFER_SIZE ≤ u.tx_buffer.length then (-4, u)  -- Busy
    else uart_write_loop
      ⟨u.inited, u.baudrate, u.tx_buffer ++ [c], u.rx_buffer, u.rx_pos⟩ rest

/-- v4_hal_uart_write from tests/mock_hal.cpp.  The C (buf, len) pair is an
`Option (List Char)` (`none` = null buf); a list always has len ≥ 0, so the
`len < 0` arm of the `!buf || len < 0` check is vacuous. -/
def v4_hal_uart_write (st : MockHal) (port : Int) (buf : Option (List Char)) :
    Int × MockHal :=
  if port < 0 ∨ port ≥ MAX_UART_PORTS then (-13, st)  -- OutOfBounds
  else if (st.uart port.toNat).inited = false then (-2, st)  -- NotInitialized
  else
    match buf with
    | none => (-1, st)  -- InvalidArg
    | some bytes =>
      ((uart_write_loop (st.uart port.toNat) bytes).1,
       setUart st port.toNat (uart_write_loop (st.uart port.toNat) bytes).2)

/-- The `available`/`to_read` computation of v4_hal_uart_read:
available = rx_count - rx_pos; to_read = (available < max_len) ? available : max_len. -/
def uart_read_to_read (u : MockUartState) (max_len : Int) : Int :=
  if ((u.rx_buffer.length : Int) - (u.rx_pos : Int)) < max_len
  then ((u.rx_buffer.length : Int) - (u.rx_pos : Int))
  else max_len

/-- v4_hal_uart_read from tests/mock_hal.cpp.  `buf_null`/`out_len_null` model
null pointers; the `List Char` component is what memcpy stored into buf, the
`Option Int` what was stored through out_len. -/
def v4_hal_uart_read (st : MockHal) (port : Int)
    (buf_null out_len_null : Bool) (max_len : Int) :
    Int × List Char × Option Int × MockHal :=
  if port < 0 ∨ port ≥ MAX_UART_PORTS then (-13, [], none, st)  -- OutOfBounds
  else if (st.uart port.toNat).inited = false then (-2, [], none, st)  -- NotInitialized
  else if buf_null ∨ out_len_null ∨ max_len < 0 then (-1, [], none, st)  -- InvalidArg
  else
    (0,
     (((st.uart port.toNat).rx_buffer.drop (st.uart port.toNat).rx_pos).take
       (uart_read_to_read (st.uart port.toNat) max_len).toNat,
      some (uart_read_to_read (st.uart port.toNat) max_len),
      setUart st port.toNat
        ⟨(st.uart port.toNat).inited, (st.uart port.toNat).baudrate,
         (st.uart port.toNat).tx_buffer, (st.uart port.toNat).rx_buffer,
         (st.uart port.toNat).rx_pos +
           (uart_read_to_read (st.uart port.toNat) max_len).toNat⟩))

/-- mock_hal_uart_inject_rx from tests/mock_hal.cpp (test control surface):
clamp len to UART_BUFFER_SIZE, memcpy that many bytes of `data` to the start
of rx_buffer, set rx_count to the clamped len and rx_pos to 0.  (`take` also
clamps to `data.length`; C behaviour is only defined when `data` holds at
least the clamped len bytes.) -/
def mock_hal_uart_inject_rx (st : MockHal) (port : Int) (data : List Char)
    (len : Int) : MockHal :=
  if port < 0 ∨ port ≥ MAX_UART_PORTS then st
  else
    setUart st port.toNat
      ⟨(st.uart port.toNat).inited, (st.uart port.toNat).baudrate,
       (st.uart port.toNat).tx_buffer,
       data.take (if (UART_BUFFER_SIZE : Int) < len then (UART_BUFFER_SIZE : Int) else len).toNat,
       0⟩

/-- v4_hal_delay_ms from tests/mock_hal.cpp: "Mock delay: just advance counter".
mock_millis_counter += ms (uint32), mock_micros_counter += ms * 1000ULL (uint64). -/
def v4_hal_delay_ms (st : MockHal) (ms : Nat) : MockHal :=
  ⟨st.gpio, st.uart, (st.millis + ms) % 2 ^ 32, (st.micros + ms * 1000) % 2 ^ 64⟩

/-- v4_hal_delay_us from tests/mock_hal.cpp:
mock_micros_counter += us (uint64), mock_millis_counter += us / 1000 (uint32). -/
def v4_hal_delay_us (st : MockHal) (us : Nat) : MockHal :=
  ⟨st.gpio, st.uart, (st.millis + us / 1000) % 2 ^ 32, (st.micros + us) % 2 ^ 64⟩

/-- mock_hal_set_millis from tests/mock_hal.cpp (ms is a uint32). -/
def mock_hal_set_millis (st : MockHal) (ms : Nat) : MockHal :=
  ⟨st.gpio, st.uart, ms % 2 ^ 32, st.micros⟩

/-- mock_hal_set_micros from tests/mock_hal.cpp (us is a uint64). -/
def mock_hal_set_micros (st : MockHal) (us : Nat) : MockHal :=
  ⟨st.gpio, st.uart, st.millis, us % 2 ^ 64⟩

/-- v4_hal_millis from tests/mock_hal.cpp. -/
def v4_hal_millis (st : MockHal) : Nat := st.millis

/-- v4_hal_micros from tests/mock_hal.cpp. -/
def v4_hal_micros (st : MockHal) : Nat := st.micros

/-- One call into the mock HAL's mutating API, used to state invariants over
arbitrary operation sequences. -/
inductive MockOp
  | gpioInit (pin : Int) (mode : v4_hal_gpio_mode)
  | gpioWrite (pin : Int) (value : Int)
  | uartInit (port baudrate : Int)
  | uartPutc (port : Int) (c : Char)
  | uartGetc (port : Int) (out_null : Bool)
  | uartWrite (port : Int) (buf : Option (List Char))
  | uartRead (port : Int) (buf_null out_len_null : Bool) (max_len : Int)
  | injectRx (port : Int) (data : List Char) (len : Int)
  | delayMs (ms : Nat)
  | delayUs (us : Nat)
  | setMillis (ms : Nat)
  | setMicros (us : Nat)
  | reset

/-- Apply one mock HAL operation to the state (v4_hal_gpio_read and the other
pure observers leave the state untouched and are omitted). -/
def MockOp.run (st : MockHal) : MockOp → MockHal
  | MockOp.gpioInit pin mode => (v4_hal_gpio_init st pin mode).2
  | MockOp.gpioWrite pin value => (v4_hal_gpio_write st pin value).2
  | MockOp.uartInit port baudrate => (v4_hal_uart_init st port baudrate).2
  | MockOp.uartPutc port c => (v4_hal_uart_putc st port c).2
  | MockOp.uartGetc port n => (v4_hal_uart_getc st port n).2.2
  | MockOp.uartWrite port buf => (v4_hal_uart_write st port buf).2
  | MockOp.uartRead port bn oln ml => (v4_hal_uart_read st port bn oln ml).2.2.2
  | MockOp.injectRx port data len => mock_hal_uart_inject_rx st port data len
  | MockOp.delayMs ms => v4_hal_delay_ms st ms
  | MockOp.delayUs us => v4_hal_delay_us st us
  | MockOp.setMillis ms => mock_hal_set_millis st ms
  | MockOp.setMicros us => mock_hal_set_micros st us
  | MockOp.reset => mock_hal_reset st

/-- Run a whole sequence of mock HAL operations. -/
def runOps (ops : List MockOp) (st : MockHal) : MockHal :=
  ops.foldl MockOp.run st

/-- TimerBase::elapsed_ms from src/internal/timer_impl.hpp, parameterised by
the value `now` that the embedded `millis()` call returns:
(now >= start_ms) ? (now - start_ms) : (0xFFFFFFFF - start_ms + now + 1),
all in uint32 arithmetic (faithful as plain Nat arithmetic whenever
start_ms, now < 2^32: neither subtraction underflows and the sum stays
below 2^32). -/
def TimerBase.elapsed_ms (now start_ms : Nat) : Nat :=
  if start_ms ≤ now then now - start_ms else 0xFFFFFFFF - start_ms + now + 1

/-- hal_capabilities_t from include/v4/hal_capabilities.h (uint8 counts and
one-bit feature flags). -/
structure hal_capabilities_t where
  gpio_count : Nat
  uart_count : Nat
  spi_count : Nat
  i2c_count : Nat
  has_adc : Bool
  has_dac : Bool
  has_pwm : Bool
  has_rtc : Bool
  has_dma : Bool
  reserved : Nat
deriving DecidableEq

/-- The weak-symbol default hal_platform_capabilities from
src/common/hal_capabilities.cpp: the static all-zero descriptor used when no
platform provides a strong definition. -/
def hal_platform_capabilities_default : hal_capabilities_t :=
  ⟨0, 0, 0, 0, false, false, false, false, false, 0⟩

/-- hal_get_capabilities from src/common/hal_capabilities.cpp in the unlinked
(default) configuration: it just returns hal_platform_capabilities(), here the
weak default.  It is a total function returning a struct (in C, a pointer to a
static struct — never null) with no failure path. -/
def hal_get_capabilities_unlinked : hal_capabilities_t :=
  hal_platform_capabilities_default

/-- hal_platform_capabilities from ports/posix/platform_posix.cpp: the strong
definition linked on the POSIX target (32 GPIO pins, 4 UART ports). -/
def hal_platform_capabilities_posix : hal_capabilities_t :=
  ⟨32, 4, 0, 0, false, false, false, false, false, 0⟩

/-- hal_gpio_mode_t from include/v4/hal_types.h. -/
inductive hal_gpio_mode_t
  | INPUT
  | INPUT_PULLUP
  | INPUT_PULLDOWN
  | OUTPUT
  | OUTPUT_OD
deriving DecidableEq

/-- hal_gpio_value_t from include/v4/hal_types.h (LOW = 0, HIGH = 1). -/
inductive hal_gpio_value_t
  | LOW
  | HIGH
deriving DecidableEq

/-- Modelled from the spec: the numeric error table hal_errors.def is not in
the tree (only its X-macro users are).  include/v4/hal_error.h fixes 0 =
success and negative = error; per the spec's taxonomy (§7, matching
include/v4/v4_hal.h) the malformed-parameter code is -1.  Only HAL_OK = 0 and
HAL_ERR_PARAM ≠ HAL_OK are relied on below. -/
def HAL_OK : Int := 0

/-- Modelled from the spec: see HAL_OK. -/
def HAL_ERR_PARAM : Int := -1

/-- One invocation of a platform primitive, as dispatched by the CRTP
GpioBase / CriticalImpl layers.  Recording these invocations is what lets the
development state in which order — and under which critical-section bracketing
— the platform is called. -/
inductive HalCall
  | gpioModeImpl (pin : Int)
  | gpioWriteImpl (pin : Int) (value : hal_gpio_value_t)
  | gpioReadImpl (pin : Int)
  | criticalEnterImpl
  | criticalExitImpl
deriving DecidableEq

/-- The platform requirements listed in src/internal/gpio_impl.hpp and
src/internal/critical_impl.hpp, over an abstract platform state S:
max_gpio_pins, gpio_mode_impl, gpio_write_impl, gpio_read_impl (which stores
a value through its out pointer), critical_enter_impl, critical_exit_impl. -/
structure GpioPlatform (S : Type) where
  max_gpio_pins : Int
  gpio_mode_impl : S → Int → hal_gpio_mode_t → Int × S
  gpio_write_impl : S → Int → hal_gpio_value_t → Int × S
  gpio_read_impl : S → Int → Int × hal_gpio_value_t × S
  critical_enter_impl : S → S
  critical_exit_impl : S → S

/-- GpioBase::mode from src/internal/gpio_impl.hpp: validate the pin number,
then delegate to Platform::gpio_mode_impl.  The List HalCall component records
the platform primitives invoked, in order. -/
def GpioBase.mode {S : Type} (P : GpioPlatform S) (s : S) (pin : Int)
    (m : hal_gpio_mode_t) : Int × S × List HalCall :=
  if pin < 0 ∨ pin ≥ P.max_gpio_pins then (HAL_ERR_PARAM, s, [])
  else
    ((P.gpio_mode_impl s pin m).1, (P.gpio_mode_impl s pin m).2,
     [HalCall.gpioModeImpl pin])

/-- GpioBase::write from src/internal/gpio_impl.hpp. -/
def GpioBase.write {S : Type} (P : GpioPlatform S) (s : S) (pin : Int)
    (value : hal_gpio_value_t) : Int × S × List HalCall :=
  if pin < 0 ∨ pin ≥ P.max_gpio_pins then (HAL_ERR_PARAM, s, [])
  else
    ((P.gpio_write_impl s pin value).1, (P.gpio_write_impl s pin value).2,
     [HalCall.gpioWriteImpl pin value])

/-- GpioBase::read from src/internal/gpio_impl.hpp.  `value_null` = the caller
passed a null out pointer; the Option is the value stored through it. -/
def GpioBase.read {S : Type} (P : GpioPlatform S) (s : S) (pin : Int)
    (value_null : Bool) : Int × Option hal_gpio_value_t × S × List HalCall :=
  if value_null ∨ pin < 0 ∨ pin ≥ P.max_gpio_pins then (HAL_ERR_PARAM, none, s, [])
  else
    ((P.gpio_read_impl s pin).1, some (P.gpio_read_impl s pin).2.1,
     (P.gpio_read_impl s pin).2.2, [HalCall.gpioReadImpl pin])

/-- GpioBase::toggle from src/internal/gpio_impl.hpp: read(pin, &current); if
that failed, return its code; otherwise write the opposite value.  (The C
local `current` is only inspected on the success path, where read always
stored a value; `getD LOW` supplies the irrelevant default of the other
path.)  Note the source brackets the read/write pair with no other calls. -/
def GpioBase.toggle {S : Type} (P : GpioPlatform S) (s : S) (pin : Int) :
    Int × S × List HalCall :=
  match GpioBase.read P s pin false with
  | (ret, cur, s1, t1) =>
    if ret ≠ HAL_OK then (ret, s1, t1)
    else
      match GpioBase.write P s1 pin
        (if cur.getD hal_gpio_value_t.LOW = hal_gpio_value_t.HIGH
         then hal_gpio_value_t.LOW else hal_gpio_value_t.HIGH) with
      | (r2, s2, t2) => (r2, s2, t1 ++ t2)

/-- CriticalImpl::critical_enter from src/internal/critical_impl.hpp:
delegate to Platform::critical_enter_impl (recorded in the trace). -/
def CriticalImpl.critical_enter {S : Type} (P : GpioPlatform S) (s : S) :
    S × List HalCall :=
  (P.critical_enter_impl s, [HalCall.criticalEnterImpl])

/-- CriticalImpl::critical_exit from src/internal/critical_impl.hpp. -/
def CriticalImpl.critical_exit {S : Type} (P : GpioPlatform S) (s : S) :
    S × List HalCall :=
  (P.critical_exit_impl s, [HalCall.criticalExitImpl])

/-- The GPIO simulation state of ports/posix/platform_posix.cpp: two uint32
bitmasks, gpio_states (pin values) and gpio_modes (1 = output). -/
structure PosixGpioState where
  gpio_states : Nat
  gpio_modes : Nat
deriving DecidableEq

/-- PosixPlatform::gpio_mode_impl from ports/posix/platform_posix.cpp:
set or clear the pin's bit in gpio_modes (`~(1u << pin)` on uint32 is
`(2^32 - 1) ^^^ (1 <<< pin)`); always HAL_OK. -/
def PosixGpio.gpio_mode_impl (s : PosixGpioState) (pin : Int)
    (mode : hal_gpio_mode_t) : Int × PosixGpioState :=
  if mode = hal_gpio_mode_t.OUTPUT ∨ mode = hal_gpio_mode_t.OUTPUT_OD then
    (HAL_OK, ⟨s.gpio_states, s.gpio_modes ||| (1 <<< pin.toNat)⟩)
  else
    (HAL_OK, ⟨s.gpio_states, s.gpio_modes &&& ((2 ^ 32 - 1) ^^^ (1 <<< pin.toNat))⟩)

/-- PosixPlatform::gpio_write_impl from ports/posix/platform_posix.cpp:
HAL_ERR_PARAM unless the pin's mode bit is set, else set/clear the value
bit. -/
def PosixGpio.gpio_write_impl (s : PosixGpioState) (pin : Int)
    (value : hal_gpio_value_t) : Int × PosixGpioState :=
  if s.gpio_modes &&& (1 <<< pin.toNat) = 0 then (HAL_ERR_PARAM, s)
  else if value = hal_gpio_value_t.HIGH then
    (HAL_OK, ⟨s.gpio_states ||| (1 <<< pin.toNat), s.gpio_modes⟩)
  else
    (HAL_OK, ⟨s.gpio_states &&& ((2 ^ 32 - 1) ^^^ (1 <<< pin.toNat)), s.gpio_modes⟩)

/-- PosixPlatform::gpio_read_impl from ports/posix/platform_posix.cpp:
*value = (gpio_states & (1u << pin)) ? HIGH : LOW; always HAL_OK. -/
def PosixGpio.gpio_read_impl (s : PosixGpioState) (pin : Int) :
    Int × hal_gpio_value_t × PosixGpioState :=
  (HAL_OK,
   (if s.gpio_states &&& (1 <<< pin.toNat) ≠ 0 then hal_gpio_value_t.HIGH
    else hal_gpio_value_t.LOW),
   s)

/-- The POSIX platform as a GpioPlatform: max_gpio_pins() = 32
(ports/posix/platform_posix.hpp); critical_enter_impl/critical_exit_impl
lock/unlock a pthread mutex, which does not touch the GPIO bitmask state, so
on this state type they are the identity (the trace still records them). -/
def PosixPlatform : GpioPlatform PosixGpioState :=
  ⟨32, PosixGpio.gpio_mode_impl, PosixGpio.gpio_write_impl,
   PosixGpio.gpio_read_impl, id, id⟩

/-- The capacity invariant of C1: every port's readable TX length is within
the declared capacity (C = 256). -/
def TxInv (st : MockHal) : Prop :=
  ∀ i : Nat, ((st.uart i).tx_buffer).length ≤ 256

/-- A concrete state for witnesses: port 0 opened at 9600 baud with its TX
buffer filled to capacity. -/
def stFull : MockHal :=
  setUart initState 0 ⟨true, 9600, List.replicate 256 'x', [], 0⟩

/-- A concrete state for witnesses: port 0 opened at 9600 baud, buffers
empty. -/
def stOpen : MockHal := setUart initState 0 ⟨true, 9600, [], [], 0⟩

/- ===================== helper lemmas ===================== -/

@[simp] theorem setUart_uart_self (st : MockHal) (i : Nat) (u : MockUartState) :
    (setUart st i u).uart i = u := by
  simp [setUart]

theorem setUart_uart_ne (st : MockHal) (i j : Nat) (u : MockUartState)
    (h : j ≠ i) : (setUart st i u).uart j = st.uart j := by
  simp [setUart, h]

@[simp] theorem setUart_gpio (st : MockHal) (i : Nat) (u : MockUartState) :
    (setUart st i u).gpio = st.gpio := rfl

@[simp] theorem setUart_millis (st : MockHal) (i : Nat) (u : MockUartState) :
    (setUart st i u).millis = st.millis := rfl

@[simp] theorem setUart_micros (st : MockHal) (i : Nat) (u : MockUartState) :
    (setUart st i u).micros = st.micros := rfl

@[simp] theorem setGpio_gpio_self (st : MockHal) (i : Nat) (g : MockGpioState) :
    (setGpio st i g).gpio i = g := by
  simp [setGpio]

theorem setGpio_gpio_ne (st : MockHal) (i j : Nat) (g : MockGpioState)
    (h : j ≠ i) : (setGpio st i g).gpio j = st.gpio j := by
  simp [setGpio, h]

@[simp] theorem setGpio_uart (st : MockHal) (i : Nat) (g : MockGpioState) :
    (setGpio st i g).uart = st.uart := rfl

theorem and_shift_ne_zero_iff (m k : Nat) :
    m &&& (1 <<< k) ≠ 0 ↔ m.testBit k = true := by
  rw [Nat.one_shiftLeft]
  constructor
  · intro h
    by_contra hb
    have hmk : m.testBit k = false := by
      revert hb; cases m.testBit k <;> simp
    apply h
    apply Nat.zero_of_testBit_eq_false
    intro i
    rw [Nat.testBit_land]
    rcases eq_or_ne k i with rfl | hne
    · rw [hmk]; rfl
    · rw [Nat.testBit_two_pow_of_ne hne]
      cases m.testBit i <;> rfl
  · intro h hz
    have h2 : (m &&& 2 ^ k).testBit k = false := by
      rw [hz]; exact Nat.zero_testBit k
    rw [Nat.testBit_land, h, Nat.testBit_two_pow_self] at h2
    simp at h2

theorem testBit_set_self (m k : Nat) : (m ||| (1 <<< k)).testBit k = true := by
  rw [Nat.one_shiftLeft, Nat.testBit_lor, Nat.testBit_two_pow_self]
  simp

theorem testBit_clear_self (m k : Nat) (hk : k < 32) :
    (m &&& ((2 ^ 32 - 1) ^^^ (1 <<< k))).testBit k = false := by
  rw [Nat.one_shiftLeft, Nat.testBit_land, Nat.testBit_xor,
    Nat.testBit_two_pow_sub_one, Nat.testBit_two_pow_self]
  simp [hk]

theorem uart_write_loop_tx_le (bytes : List Char) :
    ∀ u : MockUartState, u.tx_buffer.length ≤ 256 →
      ((uart_write_loop u bytes).2).tx_buffer.length ≤ 256 := by
  induction bytes with
  | nil => intro u h; simpa [uart_write_loop] using h
  | cons c rest ih =>
    intro u h
    by_cases hf : UART_BUFFER_SIZE ≤ u.tx_buffer.length
    · simpa [uart_write_loop, hf] using h
    · simp only [uart_write_loop, hf, if_neg, ite_false]
      apply ih
      simp only [UART_BUFFER_SIZE] at hf
      simp
      omega

theorem uart_write_loop_busy (bytes : List Char) :
    ∀ u : MockUartState, u.tx_buffer.length ≤ 256 →
      256 < u.tx_buffer.length + bytes.length →
      (uart_write_loop u bytes).1 = -4 := by
  induction bytes with
  | nil => intro u h1 h2; simp at h2; omega
  | cons c rest ih =>
    intro u h1 h2
    by_cases hf : UART_BUFFER_SIZE ≤ u.tx_buffer.length
    · simp [uart_write_loop, hf]
    · simp only [uart_write_loop, hf, if_neg, ite_false]
      apply ih
      · simp only [UART_BUFFER_SIZE] at hf
        simp
        omega
      · simp at h2 ⊢
        omega

theorem txInv_initState : TxInv initState := by
  intro i
  simp [initState, initUart]

theorem txInv_setGpio (st : MockHal) (k : Nat) (g : MockGpioState)
    (h : TxInv st) : TxInv (setGpio st k g) := by
  intro i
  rw [setGpio_uart]
  exact h i

theorem txInv_setUart (st : MockHal) (k : Nat) (u' : MockUartState)
    (h : TxInv st) (hu : u'.tx_buffer.length ≤ 256) :
    TxInv (setUart st k u') := by
  intro i
  by_cases hik : i = k
  · subst hik
    simpa using hu
  · rw [setUart_uart_ne st k i u' hik]
    exact h i

theorem txInv_run (st : MockHal) (op : MockOp) (h : TxInv st) :
    TxInv (MockOp.run st op) := by
  cases op with
  | gpioInit pin mode =>
    simp only [MockOp.run, v4_hal_gpio_init]
    split
    · exact h
    · exact txInv_setGpio _ _ _ h
  | gpioWrite pin value =>
    simp only [MockOp.run, v4_hal_gpio_write]
    split
    · exact h
    · split
      · exact h
      · split
        · exact h
        · exact txInv_setGpio _ _ _ h
  | uartInit port baudrate =>
    simp only [MockOp.run, v4_hal_uart_init]
    split
    · exact h
    · split
      · exact h
      · exact txInv_setUart _ _ _ h (by simp)
  | uartPutc port c =>
    simp only [MockOp.run, v4_hal_uart_putc]
    split
    · exact h
    · split
      · exact h
      · split
        · exact h
        · rename_i h3
          apply txInv_setUart _ _ _ h
          simp only [UART_BUFFER_SIZE] at h3
          simp
          omega
  | uartGetc port n =>
    simp only [MockOp.run, v4_hal_uart_getc]
    split
    · exact h
    · split
      · exact h
      · split
        · exact h
        · split
          · exact h
          · exact txInv_setUart _ _ _ h (h _)
  | uartWrite port buf =>
    simp only [MockOp.run, v4_hal_uart_write]
    split
    · exact h
    · split
      · exact h
      · cases buf with
        | none => exact h
        | some bytes =>
          show TxInv (setUart st port.toNat
            (uart_write_loop (st.uart port.toNat) bytes).2)
          exact txInv_setUart _ _ _ h (uart_write_loop_tx_le bytes _ (h _))
  | uartRead port bn oln ml =>
    simp only [MockOp.run, v4_hal_uart_read]
    split
    · exact h
    · split
      · exact h
      · split
        · exact h
        · exact txInv_setUart _ _ _ h (h _)
  | injectRx port data len =>
    simp only [MockOp.run, mock_hal_uart_inject_rx]
    split
    · exact h
    · exact txInv_setUart _ _ _ h (h _)
  | delayMs ms => exact h
  | delayUs us => exact h
  | setMillis ms => exact h
  | setMicros us => exact h
  | reset => exact txInv_initState

theorem txInv_runOps (ops : List MockOp) :
    ∀ st : MockHal, TxInv st → TxInv (runOps ops st) := by
  induction ops with
  | nil =>
    intro st h
    simpa [runOps] using h
  | cons op rest ih =>
    intro st h
    simp only [runOps, List.foldl_cons]
    exact ih _ (txInv_run st op h)

/- ===================== claims ===================== -/

/-- C1: Starting from the reset state, no sequence of mock HAL operations ever
brings a UART port's readable TX length (tx_count) above the declared capacity
C = 256; a v4_hal_uart_putc on a full TX buffer returns Busy (-4) and leaves
the state untouched; and a v4_hal_uart_write whose byte count would push the
buffer past capacity returns Busy (-4) while the buffer still ends within
capacity (bytes up to capacity are enqueued, none are dropped into thin air
and the buffer never grows past C). -/
theorem uart_tx_capacity_invariant
    (ops : List MockOp) (q : Nat)
    (stA : MockHal) (portA : Int) (c : Char)
    (stB : MockHal) (portB : Int) (bytes : List Char)
    (hA0 : 0 ≤ portA) (hA1 : portA < MAX_UART_PORTS)
    (hAin : (stA.uart portA.toNat).inited = true)
    (hAfull : 256 ≤ (stA.uart portA.toNat).tx_buffer.length)
    (hB0 : 0 ≤ portB) (hB1 : portB < MAX_UART_PORTS)
    (hBin : (stB.uart portB.toNat).inited = true)
    (hBcap : (stB.uart portB.toNat).tx_buffer.length ≤ 256)
    (hBover : 256 < (stB.uart portB.toNat).tx_buffer.length + bytes.length) :
    ((runOps ops initState).uart q).tx_buffer.length ≤ 256
    ∧ v4_hal_uart_putc stA portA c = (-4, stA)
    ∧ (v4_hal_uart_write stB portB (some bytes)).1 = -4
    ∧ (((v4_hal_uart_write stB portB (some bytes)).2).uart portB.toNat).tx_buffer.length ≤ 256 := by
  have hw : v4_hal_uart_write stB portB (some bytes) =
      ((uart_write_loop (stB.uart portB.toNat) bytes).1,
       setUart stB portB.toNat (uart_write_loop (stB.uart portB.toNat) bytes).2) := by
    simp only [v4_hal_uart_write]
    rw [if_neg (by simp only [MAX_UART_PORTS] at hB1 ⊢; omega),
      if_neg (by simp [hBin])]
  refine ⟨txInv_runOps ops initState txInv_initState q, ?_, ?_, ?_⟩
  · simp only [v4_hal_uart_putc, UART_BUFFER_SIZE]
    rw [if_neg (by simp only [MAX_UART_PORTS] at hA1 ⊢; omega),
      if_neg (by simp [hAin]), if_pos hAfull]
  · rw [hw]
    exact uart_write_loop_busy bytes _ hBcap hBover
  · rw [hw]
    simp only [setUart_uart_self]
    exact uart_write_loop_tx_le bytes _ hBcap

set_option maxRecDepth 4000 in
/-- Witness for C1 at a concrete full port: putc and an overflowing write
both return Busy. -/
theorem uart_tx_capacity_invariant_witness :
    v4_hal_uart_putc stFull 0 'x' = (-4, stFull)
    ∧ (v4_hal_uart_write stFull 0 (some ['y'])).1 = -4 := by
  have h := uart_tx_capacity_invariant [] 0 stFull 0 'x' stFull 0 ['y']
    (by decide) (by decide) (by simp [stFull]) (by simp [stFull])
    (by decide) (by decide) (by simp [stFull]) (by simp [stFull])
    (by simp [stFull])
  exact ⟨h.2.1, h.2.2.1⟩

/-- C4: mock GPIO error handling.  configure/write/read on an out-of-range pin
return OutOfBounds (-13) whatever the state; write and read on an in-range,
never-configured pin return NotInitialized (-2); write on an in-range,
configured pin whose mode is not Output returns InvalidArg (-1); a successful
write stores the written value (normalised to 0/1 per the v4_hal.h convention
"0 for LOW, non-zero for HIGH"). -/
theorem gpio_error_handling
    (st1 : MockHal) (p1 : Int) (m1 : v4_hal_gpio_mode) (v1 : Int) (n1 : Bool)
    (st2 : MockHal) (p2 : Int) (v2 : Int) (n2 : Bool)
    (st3 : MockHal) (p3 : Int) (v3 : Int)
    (st4 : MockHal) (p4 : Int) (v4 : Int)
    (h1 : p1 < 0 ∨ p1 ≥ MAX_GPIO_PINS)
    (h20 : 0 ≤ p2) (h21 : p2 < MAX_GPIO_PINS)
    (h2ni : (st2.gpio p2.toNat).inited = false)
    (h30 : 0 ≤ p3) (h31 : p3 < MAX_GPIO_PINS)
    (h3in : (st3.gpio p3.toNat).inited = true)
    (h3m : (st3.gpio p3.toNat).mode ≠ v4_hal_gpio_mode.OUTPUT)
    (h40 : 0 ≤ p4) (h41 : p4 < MAX_GPIO_PINS)
    (h4in : (st4.gpio p4.toNat).inited = true)
    (h4m : (st4.gpio p4.toNat).mode = v4_hal_gpio_mode.OUTPUT) :
    v4_hal_gpio_init st1 p1 m1 = (-13, st1)
    ∧ v4_hal_gpio_write st1 p1 v1 = (-13, st1)
    ∧ v4_hal_gpio_read st1 p1 n1 = (-13, none)
    ∧ v4_hal_gpio_write st2 p2 v2 = (-2, st2)
    ∧ v4_hal_gpio_read st2 p2 n2 = (-2, none)
    ∧ v4_hal_gpio_write st3 p3 v3 = (-1, st3)
    ∧ (v4_hal_gpio_write st4 p4 v4).1 = 0
    ∧ (((v4_hal_gpio_write st4 p4 v4).2).gpio p4.toNat).value
        = (if v4 ≠ 0 then 1 else 0) := by
  have hw4 : v4_hal_gpio_write st4 p4 v4 =
      (0, setGpio st4 p4.toNat
        ⟨(st4.gpio p4.toNat).inited, (st4.gpio p4.toNat).mode,
         if v4 ≠ 0 then 1 else 0⟩) := by
    simp only [v4_hal_gpio_write]
    rw [if_neg (by simp only [MAX_GPIO_PINS] at h41 ⊢; omega),
      if_neg (by simp [h4in]), if_neg (by simp [h4m])]
  refine ⟨?_, ?_, ?_, ?_, ?_, ?_, ?_, ?_⟩
  · simp only [v4_hal_gpio_init]
    rw [if_pos h1]
  · simp only [v4_hal_gpio_write]
    rw [if_pos h1]
  · simp only [v4_hal_gpio_read]
    rw [if_pos h1]
  · simp only [v4_hal_gpio_write]
    rw [if_neg (by simp only [MAX_GPIO_PINS] at h21 ⊢; omega), if_pos h2ni]
  · simp only [v4_hal_gpio_read]
    rw [if_neg (by simp only [MAX_GPIO_PINS] at h21 ⊢; omega), if_pos h2ni]
  · simp only [v4_hal_gpio_write]
    rw [if_neg (by simp only [MAX_GPIO_PINS] at h31 ⊢; omega),
      if_neg (by simp [h3in]), if_pos h3m]
  · rw [hw4]
  · rw [hw4]
    simp

/-- Witness for C4: out-of-range pin 40, unconfigured pin 3, input-mode pin 2,
output-mode pin 1, all at concrete states. -/
theorem gpio_error_handling_witness :
    v4_hal_gpio_read initState 40 false = (-13, none)
    ∧ v4_hal_gpio_write initState 3 0 = (-2, initState)
    ∧ v4_hal_gpio_write ((v4_hal_gpio_init initState 2 v4_hal_gpio_mode.INPUT).2) 2 0
        = (-1, (v4_hal_gpio_init initState 2 v4_hal_gpio_mode.INPUT).2)
    ∧ (((v4_hal_gpio_write ((v4_hal_gpio_init initState 1 v4_hal_gpio_mode.OUTPUT).2) 1 1).2).gpio 1).value
        = (if (1 : Int) ≠ 0 then 1 else 0) := by
  have h := gpio_error_handling
    initState 40 v4_hal_gpio_mode.INPUT 0 false
    initState 3 0 false
    ((v4_hal_gpio_init initState 2 v4_hal_gpio_mode.INPUT).2) 2 0
    ((v4_hal_gpio_init initState 1 v4_hal_gpio_mode.OUTPUT).2) 1 1
    (by decide) (by decide) (by decide) (by decide) (by decide) (by decide)
    (by decide) (by decide) (by decide) (by decide) (by decide) (by decide)
  exact ⟨h.2.2.1, h.2.2.2.1, h.2.2.2.2.2.1, h.2.2.2.2.2.2.2⟩

theorem and_shift_ne_zero_of_testBit (m k : Nat) (h : m.testBit k = true) :
    m &&& (1 <<< k) ≠ 0 :=
  (and_shift_ne_zero_iff m k).2 h

theorem and_shift_eq_zero_of_testBit_false (m k : Nat)
    (h : m.testBit k = false) : m &&& (1 <<< k) = 0 := by
  by_contra hne
  have := (and_shift_ne_zero_iff m k).1 hne
  rw [h] at this
  exact Bool.false_ne_true this

theorem GpioBase.mode_eq {S : Type} (P : GpioPlatform S) (s : S) (pin : Int)
    (m : hal_gpio_mode_t) (h0 : 0 ≤ pin) (h1 : pin < P.max_gpio_pins) :
    GpioBase.mode P s pin m =
      ((P.gpio_mode_impl s pin m).1, (P.gpio_mode_impl s pin m).2,
       [HalCall.gpioModeImpl pin]) := by
  simp only [GpioBase.mode]
  rw [if_neg (by omega)]

theorem GpioBase.write_eq {S : Type} (P : GpioPlatform S) (s : S) (pin : Int)
    (v : hal_gpio_value_t) (h0 : 0 ≤ pin) (h1 : pin < P.max_gpio_pins) :
    GpioBase.write P s pin v =
      ((P.gpio_write_impl s pin v).1, (P.gpio_write_impl s pin v).2,
       [HalCall.gpioWriteImpl pin v]) := by
  simp only [GpioBase.write]
  rw [if_neg (by omega)]

theorem GpioBase.read_eq {S : Type} (P : GpioPlatform S) (s : S) (pin : Int)
    (h0 : 0 ≤ pin) (h1 : pin < P.max_gpio_pins) :
    GpioBase.read P s pin false =
      ((P.gpio_read_impl s pin).1, some (P.gpio_read_impl s pin).2.1,
       (P.gpio_read_impl s pin).2.2, [HalCall.gpioReadImpl pin]) := by
  simp only [GpioBase.read]
  rw [if_neg (by simp; omega)]

theorem GpioBase.toggle_eq {S : Type} (P : GpioPlatform S) (s : S) (pin : Int)
    (h0 : 0 ≤ pin) (h1 : pin < P.max_gpio_pins)
    (hok : (P.gpio_read_impl s pin).1 = HAL_OK) :
    GpioBase.toggle P s pin =
      ((P.gpio_write_impl (P.gpio_read_impl s pin).2.2 pin
          (if (P.gpio_read_impl s pin).2.1 = hal_gpio_value_t.HIGH
           then hal_gpio_value_t.LOW else hal_gpio_value_t.HIGH)).1,
       (P.gpio_write_impl (P.gpio_read_impl s pin).2.2 pin
          (if (P.gpio_read_impl s pin).2.1 = hal_gpio_value_t.HIGH
           then hal_gpio_value_t.LOW else hal_gpio_value_t.HIGH)).2,
       [HalCall.gpioReadImpl pin,
        HalCall.gpioWriteImpl pin
          (if (P.gpio_read_impl s pin).2.1 = hal_gpio_value_t.HIGH
           then hal_gpio_value_t.LOW else hal_gpio_value_t.HIGH)]) := by
  rw [GpioBase.toggle, GpioBase.read_eq P s pin h0 h1]
  simp only [hok]
  rw [if_neg (by simp)]
  rw [GpioBase.write_eq P _ pin _ h0 h1]
  simp

/-- C3: For every in-range pin: on the mock backend, configure(p, Output) then
write(p, High) makes read(p) succeed with High; on the CRTP GpioBase layer
over the POSIX platform, the same sequence reads back HIGH, and after a
subsequent toggle(p) the read succeeds with LOW. -/
theorem gpio_write_read_toggle
    (stm : MockHal) (pm : Int) (hm0 : 0 ≤ pm) (hm1 : pm < MAX_GPIO_PINS)
    (s : PosixGpioState) (p : Int) (hp0 : 0 ≤ p)
    (hmax : p < PosixPlatform.max_gpio_pins) :
    v4_hal_gpio_read
        ((v4_hal_gpio_write
          ((v4_hal_gpio_init stm pm v4_hal_gpio_mode.OUTPUT).2) pm 1).2)
        pm false = (0, some 1)
    ∧ GpioBase.read PosixPlatform
        ((GpioBase.write PosixPlatform
           ((GpioBase.mode PosixPlatform s p hal_gpio_mode_t.OUTPUT).2.1)
           p hal_gpio_value_t.HIGH).2.1) p false
      = (HAL_OK, some hal_gpio_value_t.HIGH,
         (GpioBase.write PosixPlatform
           ((GpioBase.mode PosixPlatform s p hal_gpio_mode_t.OUTPUT).2.1)
           p hal_gpio_value_t.HIGH).2.1,
         [HalCall.gpioReadImpl p])
    ∧ GpioBase.read PosixPlatform
        ((GpioBase.toggle PosixPlatform
           ((GpioBase.write PosixPlatform
              ((GpioBase.mode PosixPlatform s p hal_gpio_mode_t.OUTPUT).2.1)
              p hal_gpio_value_t.HIGH).2.1) p).2.1) p false
      = (HAL_OK, some hal_gpio_value_t.LOW,
         (GpioBase.toggle PosixPlatform
           ((GpioBase.write PosixPlatform
              ((GpioBase.mode PosixPlatform s p hal_gpio_mode_t.OUTPUT).2.1)
              p hal_gpio_value_t.HIGH).2.1) p).2.1,
         [HalCall.gpioReadImpl p]) := by
  have hpn : p.toNat < 32 := by
    have h32 : PosixPlatform.max_gpio_pins = (32 : Int) := rfl
    rw [h32] at hmax
    omega
  have hbitm : (s.gpio_modes ||| (1 <<< p.toNat)) &&& (1 <<< p.toNat) ≠ 0 :=
    and_shift_ne_zero_of_testBit _ _ (testBit_set_self _ _)
  have hbits : (s.gpio_states ||| (1 <<< p.toNat)) &&& (1 <<< p.toNat) ≠ 0 :=
    and_shift_ne_zero_of_testBit _ _ (testBit_set_self _ _)
  have hclr : ((s.gpio_states ||| (1 <<< p.toNat)) &&&
      ((2 ^ 32 - 1) ^^^ (1 <<< p.toNat))) &&& (1 <<< p.toNat) = 0 :=
    and_shift_eq_zero_of_testBit_false _ _ (testBit_clear_self _ _ hpn)
  have e1 : (GpioBase.mode PosixPlatform s p hal_gpio_mode_t.OUTPUT).2.1
      = (⟨s.gpio_states, s.gpio_modes ||| (1 <<< p.toNat)⟩ : PosixGpioState) := by
    rw [GpioBase.mode_eq PosixPlatform s p hal_gpio_mode_t.OUTPUT hp0 hmax]
    simp [PosixPlatform, PosixGpio.gpio_mode_impl]
  have e2 : (GpioBase.write PosixPlatform
      (⟨s.gpio_states, s.gpio_modes ||| (1 <<< p.toNat)⟩ : PosixGpioState)
      p hal_gpio_value_t.HIGH).2.1
      = (⟨s.gpio_states ||| (1 <<< p.toNat),
          s.gpio_modes ||| (1 <<< p.toNat)⟩ : PosixGpioState) := by
    rw [GpioBase.write_eq PosixPlatform _ p _ hp0 hmax]
    simp [PosixPlatform, PosixGpio.gpio_write_impl, hbitm]
  have e3 : GpioBase.read PosixPlatform
      (⟨s.gpio_states ||| (1 <<< p.toNat),
        s.gpio_modes ||| (1 <<< p.toNat)⟩ : PosixGpioState) p false
      = (HAL_OK, some hal_gpio_value_t.HIGH,
         (⟨s.gpio_states ||| (1 <<< p.toNat),
           s.gpio_modes ||| (1 <<< p.toNat)⟩ : PosixGpioState),
         [HalCall.gpioReadImpl p]) := by
    rw [GpioBase.read_eq PosixPlatform _ p hp0 hmax]
    simp [PosixPlatform, PosixGpio.gpio_read_impl, hbits]
  have e4 : (GpioBase.toggle PosixPlatform
      (⟨s.gpio_states ||| (1 <<< p.toNat),
        s.gpio_modes ||| (1 <<< p.toNat)⟩ : PosixGpioState) p).2.1
      = (⟨(s.gpio_states ||| (1 <<< p.toNat)) &&&
            ((2 ^ 32 - 1) ^^^ (1 <<< p.toNat)),
          s.gpio_modes ||| (1 <<< p.toNat)⟩ : PosixGpioState) := by
    rw [GpioBase.toggle_eq PosixPlatform _ p hp0 hmax rfl]
    simp [PosixPlatform, PosixGpio.gpio_read_impl, PosixGpio.gpio_write_impl,
      hbits, hbitm]
  have e5 : GpioBase.read PosixPlatform
      (⟨(s.gpio_states ||| (1 <<< p.toNat)) &&&
          ((2 ^ 32 - 1) ^^^ (1 <<< p.toNat)),
        s.gpio_modes ||| (1 <<< p.toNat)⟩ : PosixGpioState) p false
      = (HAL_OK, some hal_gpio_value_t.LOW,
         (⟨(s.gpio_states ||| (1 <<< p.toNat)) &&&
             ((2 ^ 32 - 1) ^^^ (1 <<< p.toNat)),
           s.gpio_modes ||| (1 <<< p.toNat)⟩ : PosixGpioState),
         [HalCall.gpioReadImpl p]) := by
    rw [GpioBase.read_eq PosixPlatform _ p hp0 hmax]
    have hclr2 : (s.gpio_states ||| 1 <<< p.toNat) &&&
        (4294967295 ^^^ 1 <<< p.toNat) &&& 1 <<< p.toNat = 0 := by
      simpa using hclr
    simp [PosixPlatform, PosixGpio.gpio_read_impl, hclr, hclr2]
  have hrm : ¬(pm < 0 ∨ pm ≥ MAX_GPIO_PINS) := by
    simp only [MAX_GPIO_PINS] at hm1 ⊢
    omega
  refine ⟨?_, ?_, ?_⟩
  · simp [v4_hal_gpio_init, v4_hal_gpio_write, v4_hal_gpio_read, hrm]
  · rw [e1, e2]
    exact e3
  · rw [e1, e2, e4]
    exact e5

/-- Witness for C3 at mock pin 5 and POSIX pin 7 from the all-zero states. -/
theorem gpio_write_read_toggle_witness :
    v4_hal_gpio_read
        ((v4_hal_gpio_write
          ((v4_hal_gpio_init initState 5 v4_hal_gpio_mode.OUTPUT).2) 5 1).2)
        5 false = (0, some 1)
    ∧ (GpioBase.read PosixPlatform
        ((GpioBase.toggle PosixPlatform
           ((GpioBase.write PosixPlatform
              ((GpioBase.mode PosixPlatform ⟨0, 0⟩ 7 hal_gpio_mode_t.OUTPUT).2.1)
              7 hal_gpio_value_t.HIGH).2.1) 7).2.1) 7 false).2.1
      = some hal_gpio_value_t.LOW := by
  have h := gpio_write_read_toggle initState 5 (by decide) (by decide)
    ⟨0, 0⟩ 7 (by decide) (by decide)
  refine ⟨h.1, ?_⟩
  rw [h.2.2]

/-- C2 counterexample: at the concrete POSIX state with pin 0 configured as
Output (gpio_modes bit 0 set), GpioBase::toggle's platform-call trace is
exactly [gpio_read_impl, gpio_write_impl] — it contains no critical-section
enter before the read and no critical-section exit after the write, refuting
the claim that the read-then-write compound is performed inside a
critical_enter/critical_exit pair. -/
theorem gpio_toggle_critical_section_counterexample :
    (⟨0, 1⟩ : PosixGpioState).gpio_modes.testBit 0 = true
    ∧ (GpioBase.toggle PosixPlatform ⟨0, 1⟩ 0).2.2
        = [HalCall.gpioReadImpl 0, HalCall.gpioWriteImpl 0 hal_gpio_value_t.HIGH]
    ∧ HalCall.criticalEnterImpl ∉ (GpioBase.toggle PosixPlatform ⟨0, 1⟩ 0).2.2
    ∧ HalCall.criticalExitImpl ∉ (GpioBase.toggle PosixPlatform ⟨0, 1⟩ 0).2.2 := by
  decide

/-- C2 (amended): for every platform, state and in-range pin whose
gpio_read_impl reports HAL_OK, toggle(p) is the compound of a read of the
current value followed by a write of the opposite value — but it is performed
with NO critical-section bracketing: its platform-call trace is exactly
[read, write] and contains neither critical_enter nor critical_exit. -/
theorem gpio_toggle_read_write_no_critical {S : Type} (P : GpioPlatform S)
    (s : S) (pin : Int) (h0 : 0 ≤ pin) (h1 : pin < P.max_gpio_pins)
    (hok : (P.gpio_read_impl s pin).1 = HAL_OK) :
    (GpioBase.toggle P s pin).2.2
      = [HalCall.gpioReadImpl pin,
         HalCall.gpioWriteImpl pin
           (if (P.gpio_read_impl s pin).2.1 = hal_gpio_value_t.HIGH
            then hal_gpio_value_t.LOW else hal_gpio_value_t.HIGH)]
    ∧ (GpioBase.toggle P s pin).2.1
      = (P.gpio_write_impl (P.gpio_read_impl s pin).2.2 pin
           (if (P.gpio_read_impl s pin).2.1 = hal_gpio_value_t.HIGH
            then hal_gpio_value_t.LOW else hal_gpio_value_t.HIGH)).2
    ∧ HalCall.criticalEnterImpl ∉ (GpioBase.toggle P s pin).2.2
    ∧ HalCall.criticalExitImpl ∉ (GpioBase.toggle P s pin).2.2 := by
  rw [GpioBase.toggle_eq P s pin h0 h1 hok]
  refine ⟨rfl, rfl, ?_, ?_⟩ <;> simp

/-- Witness for the amended C2 at POSIX pin 3. -/
theorem gpio_toggle_read_write_no_critical_witness :
    (GpioBase.toggle PosixPlatform ⟨0, 1⟩ 3).2.2
      = [HalCall.gpioReadImpl 3,
         HalCall.gpioWriteImpl 3
           (if (PosixPlatform.gpio_read_impl ⟨0, 1⟩ 3).2.1 = hal_gpio_value_t.HIGH
            then hal_gpio_value_t.LOW else hal_gpio_value_t.HIGH)]
    ∧ HalCall.criticalEnterImpl ∉ (GpioBase.toggle PosixPlatform ⟨0, 1⟩ 3).2.2 := by
  have h := gpio_toggle_read_write_no_critical PosixPlatform ⟨0, 1⟩ 3
    (by decide) (by decide) (by decide)
  exact ⟨h.1, h.2.2.1⟩

theorem uart_read_to_read_le (u : MockUartState) (ml : Int) :
    (uart_read_to_read u ml).toNat ≤ ml.toNat := by
  simp only [uart_read_to_read]
  split
  · next h => exact Int.toNat_le_toNat (le_of_lt h)
  · exact le_refl _

theorem setUart_setUart (st : MockHal) (i : Nat) (u u' : MockUartState) :
    setUart (setUart st i u) i u' = setUart st i u' := by
  simp only [setUart]
  congr 1
  funext j
  by_cases h : j = i <;> simp [h]

/-- C5: On any opened in-range port, after injecting "Hi" into the RX buffer,
two successive read(port, 1) calls succeed returning 'H' then 'i' (FIFO order
from the front of rx_buffer at the cursor), and a third read succeeds (code 0)
reporting 0 bytes read; moreover every read pops at most max_len bytes and
never blocks (it is a total function). -/
theorem uart_inject_read_fifo
    (st : MockHal) (port : Int)
    (h0 : 0 ≤ port) (h1 : port < MAX_UART_PORTS)
    (hin : (st.uart port.toNat).inited = true) :
    (v4_hal_uart_read (mock_hal_uart_inject_rx st port ['H', 'i'] 2)
       port false false 1).1 = 0
    ∧ (v4_hal_uart_read (mock_hal_uart_inject_rx st port ['H', 'i'] 2)
       port false false 1).2.1 = ['H']
    ∧ (v4_hal_uart_read (mock_hal_uart_inject_rx st port ['H', 'i'] 2)
       port false false 1).2.2.1 = some 1
    ∧ (v4_hal_uart_read
        ((v4_hal_uart_read (mock_hal_uart_inject_rx st port ['H', 'i'] 2)
           port false false 1).2.2.2) port false false 1).1 = 0
    ∧ (v4_hal_uart_read
        ((v4_hal_uart_read (mock_hal_uart_inject_rx st port ['H', 'i'] 2)
           port false false 1).2.2.2) port false false 1).2.1 = ['i']
    ∧ (v4_hal_uart_read
        ((v4_hal_uart_read (mock_hal_uart_inject_rx st port ['H', 'i'] 2)
           port false false 1).2.2.2) port false false 1).2.2.1 = some 1
    ∧ (v4_hal_uart_read
        ((v4_hal_uart_read
          ((v4_hal_uart_read (mock_hal_uart_inject_rx st port ['H', 'i'] 2)
             port false false 1).2.2.2) port false false 1).2.2.2)
        port false false 1).1 = 0
    ∧ (v4_hal_uart_read
        ((v4_hal_uart_read
          ((v4_hal_uart_read (mock_hal_uart_inject_rx st port ['H', 'i'] 2)
             port false false 1).2.2.2) port false false 1).2.2.2)
        port false false 1).2.1 = []
    ∧ (v4_hal_uart_read
        ((v4_hal_uart_read
          ((v4_hal_uart_read (mock_hal_uart_inject_rx st port ['H', 'i'] 2)
             port false false 1).2.2.2) port false false 1).2.2.2)
        port false false 1).2.2.1 = some 0
    ∧ (∀ (stq : MockHal) (pq : Int) (bn oln : Bool) (ml : Int),
        ((v4_hal_uart_read stq pq bn oln ml).2.1).length ≤ ml.toNat) := by
  have hr : ¬(port < 0 ∨ port ≥ MAX_UART_PORTS) := by
    simp only [MAX_UART_PORTS] at h1 ⊢
    omega
  have einj : mock_hal_uart_inject_rx st port ['H', 'i'] 2 =
      setUart st port.toNat
        ⟨(st.uart port.toNat).inited, (st.uart port.toNat).baudrate,
         (st.uart port.toNat).tx_buffer, ['H', 'i'], 0⟩ := by
    simp only [mock_hal_uart_inject_rx, UART_BUFFER_SIZE]
    rw [if_neg hr]
    simp
  have e1 : v4_hal_uart_read
      (setUart st port.toNat
        ⟨(st.uart port.toNat).inited, (st.uart port.toNat).baudrate,
         (st.uart port.toNat).tx_buffer, ['H', 'i'], 0⟩) port false false 1 =
      (0, ['H'], some 1,
       setUart st port.toNat
        ⟨(st.uart port.toNat).inited, (st.uart port.toNat).baudrate,
         (st.uart port.toNat).tx_buffer, ['H', 'i'], 1⟩) := by
    simp only [v4_hal_uart_read]
    rw [if_neg hr, if_neg (by simp [hin]), if_neg (by simp)]
    simp [uart_read_to_read, setUart_setUart]
  have e2 : v4_hal_uart_read
      (setUart st port.toNat
        ⟨(st.uart port.toNat).inited, (st.uart port.toNat).baudrate,
         (st.uart port.toNat).tx_buffer, ['H', 'i'], 1⟩) port false false 1 =
      (0, ['i'], some 1,
       setUart st port.toNat
        ⟨(st.uart port.toNat).inited, (st.uart port.toNat).baudrate,
         (st.uart port.toNat).tx_buffer, ['H', 'i'], 2⟩) := by
    simp only [v4_hal_uart_read]
    rw [if_neg hr, if_neg (by simp [hin]), if_neg (by simp)]
    simp [uart_read_to_read, setUart_setUart]
  have e3 : v4_hal_uart_read
      (setUart st port.toNat
        ⟨(st.uart port.toNat).inited, (st.uart port.toNat).baudrate,
         (st.uart port.toNat).tx_buffer, ['H', 'i'], 2⟩) port false false 1 =
      (0, [], some 0,
       setUart st port.toNat
        ⟨(st.uart port.toNat).inited, (st.uart port.toNat).baudrate,
         (st.uart port.toNat).tx_buffer, ['H', 'i'], 2⟩) := by
    simp only [v4_hal_uart_read]
    rw [if_neg hr, if_neg (by simp [hin]), if_neg (by simp)]
    simp [uart_read_to_read, setUart_setUart]
  rw [einj, e1]
  refine ⟨rfl, rfl, rfl, ?_, ?_, ?_, ?_, ?_, ?_, ?_⟩
  · dsimp only
    rw [e2]
  · dsimp only
    rw [e2]
  · dsimp only
    rw [e2]
  · dsimp only
    rw [e2]
    dsimp only
    rw [e3]
  · dsimp only
    rw [e2]
    dsimp only
    rw [e3]
  · dsimp only
    rw [e2]
    dsimp only
    rw [e3]
  intro stq pq bn oln ml
  simp only [v4_hal_uart_read]
  split
  · simp
  · split
    · simp
    · split
      · simp
      · dsimp only
        refine le_trans ?_ (uart_read_to_read_le (stq.uart pq.toNat) ml)
        rw [List.length_take]
        exact min_le_left _ _

/-- Witness for C5 on port 0 of a concrete opened state. -/
theorem uart_inject_read_fifo_witness :
    (v4_hal_uart_read (mock_hal_uart_inject_rx stOpen 0 ['H', 'i'] 2)
       0 false false 1).2.1 = ['H']
    ∧ (v4_hal_uart_read
        ((v4_hal_uart_read (mock_hal_uart_inject_rx stOpen 0 ['H', 'i'] 2)
           0 false false 1).2.2.2) 0 false false 1).2.1 = ['i']
    ∧ (v4_hal_uart_read
        ((v4_hal_uart_read
          ((v4_hal_uart_read (mock_hal_uart_inject_rx stOpen 0 ['H', 'i'] 2)
             0 false false 1).2.2.2) 0 false false 1).2.2.2)
        0 false false 1).2.2.1 = some 0 := by
  have h := uart_inject_read_fifo stOpen 0 (by decide) (by decide) (by decide)
  exact ⟨h.2.1, h.2.2.2.2.1, h.2.2.2.2.2.2.2.2.1⟩

/-- C6: Every UART operation other than open (putc, getc, write, read) on an
in-range port that was never initialized returns NotInitialized (-2) and
returns the state completely unchanged — no partial mutation of buffers,
counts, cursor, baudrate or the initialized flag. -/
theorem uart_not_initialized_uniform
    (st : MockHal) (port : Int) (c : Char) (gn : Bool)
    (buf : Option (List Char)) (bn oln : Bool) (ml : Int)
    (h0 : 0 ≤ port) (h1 : port < MAX_UART_PORTS)
    (hni : (st.uart port.toNat).inited = false) :
    v4_hal_uart_putc st port c = (-2, st)
    ∧ v4_hal_uart_getc st port gn = (-2, none, st)
    ∧ v4_hal_uart_write st port buf = (-2, st)
    ∧ v4_hal_uart_read st port bn oln ml = (-2, [], none, st) := by
  have hr : ¬(port < 0 ∨ port ≥ MAX_UART_PORTS) := by
    simp only [MAX_UART_PORTS] at h1 ⊢
    omega
  refine ⟨?_, ?_, ?_, ?_⟩
  · simp only [v4_hal_uart_putc]
    rw [if_neg hr, if_pos hni]
  · simp only [v4_hal_uart_getc]
    rw [if_neg hr, if_pos hni]
  · simp only [v4_hal_uart_write]
    rw [if_neg hr, if_pos hni]
  · simp only [v4_hal_uart_read]
    rw [if_neg hr, if_pos hni]

/-- Witness for C6 on the never-opened port 2 of the reset state. -/
theorem uart_not_initialized_uniform_witness :
    v4_hal_uart_putc initState 2 'A' = (-2, initState)
    ∧ v4_hal_uart_read initState 2 false false 8 = (-2, [], none, initState) := by
  have h := uart_not_initialized_uniform initState 2 'A' false (some ['B'])
    false false 8 (by decide) (by decide) (by decide)
  exact ⟨h.1, h.2.2.2⟩

/-- C7: Simulated delays advance the clock by exactly the requested amount:
whenever the uint32/uint64 counters do not wrap, delay_ms(ms) adds exactly ms
to millis and ms*1000 to micros, delay_us(us) adds exactly us to micros; in
particular delay_ms(100) from millis = 0 yields millis = 100. -/
theorem delay_advances_clock_exactly
    (st : MockHal) (ms us : Nat)
    (hms : st.millis + ms < 2 ^ 32)
    (hmic : st.micros + ms * 1000 < 2 ^ 64)
    (hus : st.micros + us < 2 ^ 64) :
    (v4_hal_delay_ms st ms).millis = st.millis + ms
    ∧ (v4_hal_delay_ms st ms).micros = st.micros + ms * 1000
    ∧ (v4_hal_delay_us st us).micros = st.micros + us
    ∧ (st.millis = 0 → (v4_hal_delay_ms st 100).millis = 100) := by
  refine ⟨?_, ?_, ?_, ?_⟩
  · simp only [v4_hal_delay_ms]
    exact Nat.mod_eq_of_lt hms
  · simp only [v4_hal_delay_ms]
    exact Nat.mod_eq_of_lt hmic
  · simp only [v4_hal_delay_us]
    exact Nat.mod_eq_of_lt hus
  · intro h
    simp only [v4_hal_delay_ms, h, Nat.zero_add]
    exact Nat.mod_eq_of_lt (by norm_num)

/-- Witness for C7 from the reset clock: delay_ms(100) gives millis = 100,
delay_us(50) gives micros = 50. -/
theorem delay_advances_clock_exactly_witness :
    (v4_hal_delay_ms initState 100).millis = initState.millis + 100
    ∧ (v4_hal_delay_us initState 50).micros = initState.micros + 50
    ∧ (v4_hal_delay_ms initState 100).millis = 100 := by
  have h := delay_advances_clock_exactly initState 100 50
    (by decide) (by decide) (by decide)
  exact ⟨h.1, h.2.2.1, h.2.2.2 rfl⟩

/-- C8: TimerBase::elapsed_ms computes now - start when now ≥ start and
(0xFFFFFFFF - start) + now + 1 when now < start, which for any two uint32
values equals the wrapped difference (now - start) mod 2^32 — small and
non-negative even when start is near 0xFFFFFFFF and now near 0. -/
theorem elapsed_ms_wraparound (now start : Nat)
    (hn : now < 2 ^ 32) (hs : start < 2 ^ 32) :
    (start ≤ now → TimerBase.elapsed_ms now start = now - start)
    ∧ (now < start →
        TimerBase.elapsed_ms now start = 0xFFFFFFFF - start + now + 1)
    ∧ TimerBase.elapsed_ms now start = (now + (2 ^ 32 - start)) % 2 ^ 32 := by
  refine ⟨?_, ?_, ?_⟩
  · intro h
    rw [TimerBase.elapsed_ms, if_pos h]
  · intro h
    rw [TimerBase.elapsed_ms, if_neg (by omega)]
  · rw [TimerBase.elapsed_ms]
    split <;> omega

/-- Witness for C8 with start near the top of the counter and now near 0:
the wrapped difference is the small value 21. -/
theorem elapsed_ms_wraparound_witness :
    TimerBase.elapsed_ms 5 0xFFFFFFF0 = (5 + (2 ^ 32 - 0xFFFFFFF0)) % 2 ^ 32
    ∧ (5 + (2 ^ 32 - 0xFFFFFFF0)) % 2 ^ 32 = 21 := by
  have h := elapsed_ms_wraparound 5 0xFFFFFFF0 (by decide) (by decide)
  exact ⟨h.2.2, by decide⟩

/-- C9: the default (unlinked) capability descriptor is total — a static
struct, never a failure or a null — with all resource counts zero and all
feature flags clear. -/
theorem capabilities_default_all_zero :
    hal_get_capabilities_unlinked.gpio_count = 0
    ∧ hal_get_capabilities_unlinked.uart_count = 0
    ∧ hal_get_capabilities_unlinked.spi_count = 0
    ∧ hal_get_capabilities_unlinked.i2c_count = 0
    ∧ hal_get_capabilities_unlinked.has_adc = false
    ∧ hal_get_capabilities_unlinked.has_dac = false
    ∧ hal_get_capabilities_unlinked.has_pwm = false
    ∧ hal_get_capabilities_unlinked.has_rtc = false
    ∧ hal_get_capabilities_unlinked.has_dma = false
    ∧ hal_get_capabilities_unlinked = hal_platform_capabilities_default := by
  decide

/-- C10: mock_hal_uart_inject_rx replaces rather than appends: on an in-range
port it sets rx_buffer to the first min(len, 256) bytes of data (discarding
unread old bytes and any bytes beyond capacity), resets the cursor to 0, and
touches nothing else (TX buffer, baudrate, initialized flag, other ports,
GPIO, clock); on an out-of-range port it is the identity. -/
theorem inject_rx_replaces
    (st : MockHal) (port : Int) (data : List Char) (len : Int)
    (p2 : Int) (d2 : List Char) (l2 : Int)
    (h0 : 0 ≤ port) (h1 : port < MAX_UART_PORTS)
    (hl : 0 ≤ len) (hd : len.toNat ≤ data.length)
    (h2 : p2 < 0 ∨ p2 ≥ MAX_UART_PORTS) :
    ((mock_hal_uart_inject_rx st port data len).uart port.toNat).rx_buffer
        = data.take (min len 256).toNat
    ∧ ((mock_hal_uart_inject_rx st port data len).uart port.toNat).rx_buffer.length
        = (min len 256).toNat
    ∧ ((mock_hal_uart_inject_rx st port data len).uart port.toNat).rx_pos = 0
    ∧ ((mock_hal_uart_inject_rx st port data len).uart port.toNat).tx_buffer
        = (st.uart port.toNat).tx_buffer
    ∧ ((mock_hal_uart_inject_rx st port data len).uart port.toNat).baudrate
        = (st.uart port.toNat).baudrate
    ∧ ((mock_hal_uart_inject_rx st port data len).uart port.toNat).inited
        = (st.uart port.toNat).inited
    ∧ (∀ j : Nat, j ≠ port.toNat →
        (mock_hal_uart_inject_rx st port data len).uart j = st.uart j)
    ∧ (mock_hal_uart_inject_rx st port data len).gpio = st.gpio
    ∧ (mock_hal_uart_inject_rx st port data len).millis = st.millis
    ∧ (mock_hal_uart_inject_rx st port data len).micros = st.micros
    ∧ mock_hal_uart_inject_rx st p2 d2 l2 = st := by
  have hr : ¬(port < 0 ∨ port ≥ MAX_UART_PORTS) := by
    simp only [MAX_UART_PORTS] at h1 ⊢
    omega
  have hmin : (if (UART_BUFFER_SIZE : Int) < len then (UART_BUFFER_SIZE : Int)
      else len) = min len 256 := by
    simp only [UART_BUFFER_SIZE, Nat.cast_ofNat]
    split <;> omega
  have e : mock_hal_uart_inject_rx st port data len =
      setUart st port.toNat
        ⟨(st.uart port.toNat).inited, (st.uart port.toNat).baudrate,
         (st.uart port.toNat).tx_buffer, data.take (min len 256).toNat, 0⟩ := by
    simp only [mock_hal_uart_inject_rx]
    rw [if_neg hr, hmin]
  refine ⟨?_, ?_, ?_, ?_, ?_, ?_, ?_, ?_, ?_, ?_, ?_⟩
  · rw [e, setUart_uart_self]
  · rw [e, setUart_uart_self]
    simp only [List.length_take]
    omega
  · rw [e, setUart_uart_self]
  · rw [e, setUart_uart_self]
  · rw [e, setUart_uart_self]
  · rw [e, setUart_uart_self]
  · intro j hj
    rw [e, setUart_uart_ne _ _ _ _ hj]
  · rw [e]
    rfl
  · rw [e]
    rfl
  · rw [e]
    rfl
  · simp only [mock_hal_uart_inject_rx]
    rw [if_pos h2]

/-- Witness for C10 injecting "Hi" into the opened port 0, and a no-op
injection into the out-of-range port 9. -/
theorem inject_rx_replaces_witness :
    ((mock_hal_uart_inject_rx stOpen 0 ['H', 'i'] 2).uart (0 : Int).toNat).rx_buffer
        = List.take (min 2 256 : Int).toNat ['H', 'i']
    ∧ ((mock_hal_uart_inject_rx stOpen 0 ['H', 'i'] 2).uart (0 : Int).toNat).inited
        = (stOpen.uart (0 : Int).toNat).inited
    ∧ mock_hal_uart_inject_rx stOpen 9 ['H', 'i'] 2 = stOpen := by
  have h := inject_rx_replaces stOpen 0 ['H', 'i'] 2 9 ['H', 'i'] 2
    (by decide) (by decide) (by decide) (by decide) (by decide)
  exact ⟨h.1, h.2.2.2.2.2.1, h.2.2.2.2.2.2.2.2.2.2⟩
